import Mathlib

/-!
Verification of the dictation core: state machine, worker queue, VAD segmenter.

Shallow embedding of the dispatch/concurrency core of the dictation
application (src/state.rs, src/worker.rs, src/vad.rs, src/audio.rs,
src/transcriber.rs).  Machine floats are modelled as exact rationals;
machine integers as `Nat`/`Int` with explicit saturation/truncation where
the Rust code saturates or truncates.  External collaborators (the speech
probability classifier, the whisper inference engine, the OS audio device)
are abstracted as function parameters, exactly as the specification treats
them.
-/

namespace Dictation

/-! ## src/state.rs — readiness state machine -/

/-- Model of `ReadinessState` from src/state.rs (`#[repr(u8)]`, discriminants 0..5). -/
inductive ReadinessState where
  | Cold
  | Loading
  | Warm
  | Hot
  | Recording
  | Transcribing
deriving DecidableEq, Repr

/-- The `as u8` encoding of a `ReadinessState` (its `repr(u8)` discriminant). -/
def ReadinessState.toU8 : ReadinessState → ℕ
  | .Cold => 0
  | .Loading => 1
  | .Warm => 2
  | .Hot => 3
  | .Recording => 4
  | .Transcribing => 5

/-- Model of `impl From<u8> for ReadinessState` (src/state.rs:15-27): decodes a stored
byte, mapping every value other than 0..=5 to `Cold`. -/
def ReadinessState.ofU8 (v : ℕ) : ReadinessState :=
  match v with
  | 0 => .Cold
  | 1 => .Loading
  | 2 => .Warm
  | 3 => .Hot
  | 4 => .Recording
  | 5 => .Transcribing
  | _ => .Cold

namespace StateManager

/-- Model of `StateManager::get` (src/state.rs:41-43).  The manager's state is the
stored `AtomicU8` byte, modelled as a `ℕ`. -/
def get (s : ℕ) : ReadinessState :=
  ReadinessState.ofU8 s

/-- Model of `StateManager::set` (src/state.rs:45-48): stores the encoded state,
returning the new byte. -/
def set (_s : ℕ) (st : ReadinessState) : ℕ :=
  st.toU8

/-- Model of `StateManager::transition_to_loading` (src/state.rs:50-58): returns the
Rust `bool` result together with the byte stored afterwards. -/
def transition_to_loading (s : ℕ) : Bool × ℕ :=
  if get s = ReadinessState.Cold then (true, set s ReadinessState.Loading)
  else (false, s)

end StateManager

/-! ## src/events.rs — outcome events -/

/-- Model of `AppEvent` from src/events.rs. -/
inductive AppEvent where
  | TranscriptionComplete (text : String)
  | TranscriptionFailed
  | Quit
deriving DecidableEq, Repr

/-! ## src/worker.rs — transcription worker and capacity-1 slot -/

/-- Model of `TranscriptionRequest` from src/worker.rs:9-12.  `f32` samples are
modelled as exact rationals. -/
structure TranscriptionRequest where
  samples : List ℚ
  sample_rate : ℕ
deriving DecidableEq, Repr

/-- Observable state of the worker's capacity-1 bounded channel together
with the list of outcome events posted so far: `slot` is the request sitting
in the `crossbeam_channel::bounded(1)` buffer that the worker has not yet
pulled. -/
structure WorkerState where
  slot : Option TranscriptionRequest
  events : List AppEvent
deriving DecidableEq, Repr

/-- Model of `TranscriptionWorker::submit` (src/worker.rs:61-74) on a live worker:
`try_send` on the capacity-1 channel places the request if the slot is
empty; if the slot is full it returns `TrySendError::Full`, dropping the new
request, leaving the queued one untouched, and posting no event. -/
def TranscriptionWorker.submit (s : WorkerState) (request : TranscriptionRequest) :
    WorkerState :=
  match s.slot with
  | none => { s with slot := some request }
  | some _ => s

/-- One iteration of the worker loop (src/worker.rs:36-53): if a request is
queued, pull it and run `process_request`, which posts exactly one outcome
event (`process` abstracts `process_request` composed with the event proxy). -/
def TranscriptionWorker.step (process : TranscriptionRequest → AppEvent)
    (s : WorkerState) : WorkerState :=
  match s.slot with
  | some request => { slot := none, events := s.events ++ [process request] }
  | none => s

/-- Step 1 of `TranscriptionWorker::process_request` (src/worker.rs:82-98):
the samples handed to the length check and the engine.  `vad_processor` is
`some vadf` when VAD is enabled; `vadf` returns `Except` for the Rust
`Result`, with `Option` inside for "no speech".  Returns `none` when the
function early-returns with a `TranscriptionFailed` event (the `Ok(None)`
branch); on a segmenter error it falls back to the original samples. -/
def samplesToTranscribe (request : TranscriptionRequest)
    (vad_processor : Option (List ℚ → ℕ → Except String (Option (List ℚ)))) :
    Option (List ℚ) :=
  match vad_processor with
  | some vadf =>
    match vadf request.samples request.sample_rate with
    | .ok (some trimmed) => some trimmed
    | .ok none => none
    | .error _ => some request.samples
  | none => some request.samples

/-- Model of `TranscriptionWorker::process_request` (src/worker.rs:76-122).  Returns
the single event sent on the proxy, paired with whether
`model_manager.transcribe` (the inference engine) was called.  `transcribe`
abstracts `ModelManager::transcribe`. -/
def process_request (request : TranscriptionRequest)
    (vad_processor : Option (List ℚ → ℕ → Except String (Option (List ℚ))))
    (transcribe : List ℚ → ℕ → Except String String) :
    AppEvent × Bool :=
  match samplesToTranscribe request vad_processor with
  | none => (AppEvent.TranscriptionFailed, false)
  | some samples =>
    if samples.length ≤ 1600 then (AppEvent.TranscriptionFailed, false)
    else
      match transcribe samples request.sample_rate with
      | .ok text =>
        if text.isEmpty then (AppEvent.TranscriptionFailed, true)
        else (AppEvent.TranscriptionComplete text, true)
      | .error _ => (AppEvent.TranscriptionFailed, true)

/-! ## src/transcriber.rs — post-processing of the engine's raw text -/

/-- Rust `str::trim`: remove leading and trailing whitespace characters.
Modelled structurally on the character list. -/
def rustStrTrim (s : String) : String :=
  ⟨((s.data.dropWhile Char.isWhitespace).reverse.dropWhile Char.isWhitespace).reverse⟩

/-- The text post-processing at the end of `Transcriber::transcribe`
(src/transcriber.rs:71-76): trim the concatenated segment text, and clear it
when it is exactly the literal silence marker `"[BLANK_AUDIO]"`.  `text` is
the concatenation of the raw segment texts produced by the external engine. -/
def Transcriber.postprocessTranscript (text : String) : String :=
  let result := rustStrTrim text
  if result = "[BLANK_AUDIO]" then "" else result

/-! ## src/vad.rs — voice activity segmenter -/

/-- Truncation toward zero of an exact rational: the value a Rust `as`
cast produces from a float that is already clamped into the target range. -/
def ratTrunc (q : ℚ) : ℤ :=
  if 0 ≤ q then ⌊q⌋ else ⌈q⌉

/-- Rust `f32::clamp(min, max)` on exact rationals:
`if self < min { min } else if self > max { max } else { self }`. -/
def rustClamp (x lo hi : ℚ) : ℚ :=
  if x < lo then lo else if hi < x then hi else x

/-- The per-sample quantization in `VadProcessor::process` (src/vad.rs:22-25):
`(s * 32767.0).clamp(-32768.0, 32767.0) as i16`, with `f32` arithmetic
modelled as exact rational arithmetic. -/
def quantize (s : ℚ) : ℤ :=
  ratTrunc (rustClamp (s * 32767) (-32768) 32767)

/-- Model of `VadProcessor` (src/vad.rs:4-8). -/
structure VadProcessor where
  threshold : ℚ
  min_speech_samples : ℕ
  padding_samples : ℕ
deriving DecidableEq, Repr

/-- Model of `VadProcessor::new` (src/vad.rs:11-17): `min_speech_samples` and
`padding_samples` are computed once, from the construction-time sample rate
(`(sample_rate as f32 * 0.1) as usize`, `(sample_rate as f32 * 0.05) as
usize`); the float literals `0.1`/`0.05` are modelled as the exact rationals
`1/10`/`1/20` (the `f32` computation agrees at the audio rates in use). -/
def VadProcessor.new (threshold : ℚ) (sample_rate : ℕ) : VadProcessor :=
  { threshold := threshold
    min_speech_samples := (ratTrunc ((sample_rate : ℚ) * (1 / 10))).toNat
    padding_samples := (ratTrunc ((sample_rate : ℚ) * (1 / 20))).toNat }

/-- Chunk-size selection at the top of `VadProcessor::process`
(src/vad.rs:20): 256 samples per chunk at 8000 Hz, else 512. -/
def chunkSizeOf (sample_rate : ℕ) : ℕ :=
  if sample_rate = 8000 then 256 else 512

/-- The `i`-th complete chunk of the quantized sample buffer. -/
def vadChunk (samples_i16 : List ℤ) (chunk_size i : ℕ) : List ℤ :=
  (samples_i16.drop (i * chunk_size)).take chunk_size

/-- Loop state of the chunk scan in `VadProcessor::process`
(src/vad.rs:33-35): `speech_start`, `speech_end`, `has_speech`. -/
structure VadScan where
  speech_start : Option ℕ
  speech_end : Option ℕ
  has_speech : Bool
deriving DecidableEq, Repr

/-- One iteration of the chunk loop in `VadProcessor::process`
(src/vad.rs:37-52).  `predict i chunk` is the external classifier's speech
probability for the `i`-th chunk: the stateful `VoiceActivityDetector` is an
external collaborator and is abstracted as an oracle, exactly as the
specification treats it. -/
def vadStepChunk (threshold : ℚ) (predict : ℕ → List ℤ → ℚ)
    (samples_i16 : List ℤ) (chunk_size : ℕ) (st : VadScan) (i : ℕ) : VadScan :=
  if threshold < predict i (vadChunk samples_i16 chunk_size i) then
    { speech_start :=
        if st.speech_start = none then some (i * chunk_size) else st.speech_start
      speech_end := some (i * chunk_size + chunk_size)
      has_speech := true }
  else st

/-- Model of `VadProcessor::process` (src/vad.rs:19-79).  `build` abstracts
the external `VoiceActivityDetector::builder().sample_rate(..).chunk_size(..)
.build()` call (src/vad.rs:27-31) together with the resulting detector's
per-chunk predictions: it receives the per-call sample rate and the chunk
size and returns either a builder error — which `process` propagates with
the "VAD creation failed" prefix, mirroring the `map_err`/`?` at
vad.rs:31 — or the prediction oracle for this call.  The chunk loop runs
over the `samples.length / chunk_size` complete chunks (the `break`
discards a final partial chunk); the detected raw span is padded by
`padding_samples` on both sides (saturating at 0, clamped to the buffer
length) and spans shorter than `min_speech_samples` are rejected. -/
def VadProcessor.process (self : VadProcessor)
    (build : ℕ → ℕ → Except String (ℕ → List ℤ → ℚ))
    (samples : List ℚ) (sample_rate : ℕ) : Except String (Option (List ℚ)) :=
  let chunk_size := chunkSizeOf sample_rate
  let samples_i16 := samples.map quantize
  match build sample_rate chunk_size with
  | .error e => .error ("VAD creation failed: " ++ e)
  | .ok predict =>
    let st := (List.range (samples.length / chunk_size)).foldl
      (vadStepChunk self.threshold predict samples_i16 chunk_size)
      ⟨none, none, false⟩
    if st.has_speech = false then .ok none
    else
      let start := st.speech_start.getD 0
      let stop := st.speech_end.getD samples.length
      let padded_start := start - self.padding_samples
      let padded_end := min (stop + self.padding_samples) samples.length
      let trimmed_len := padded_end - padded_start
      if trimmed_len < self.min_speech_samples then .ok none
      else .ok (some ((samples.drop padded_start).take trimmed_len))

/-! ## Spec-side quantization (for claim C2) -/

/-- Modelled from the spec: the mathematical clamp written in §4.3 step 1. -/
def specClamp (x lo hi : ℚ) : ℚ :=
  max lo (min x hi)

/-- Rounding to the nearest integer, halves away from zero (the rounding of
Rust `f32::round`, the natural reading of the spec's `round`). -/
def ratRound (q : ℚ) : ℤ :=
  if 0 ≤ q then ⌊q + 1 / 2⌋ else ⌈q - 1 / 2⌉

/-- Modelled from the spec, §4.3 step 1 as claim C2 states it:
`round(clamp(sample * 32767, -32768, 32767))`. -/
def specQuantizeRound (s : ℚ) : ℤ :=
  ratRound (specClamp (s * 32767) (-32768) 32767)

/-- The spec's quantization formula amended to truncation toward zero:
`trunc(clamp(sample * 32767, -32768, 32767))`. -/
def specQuantizeTrunc (s : ℚ) : ℤ :=
  ratTrunc (specClamp (s * 32767) (-32768) 32767)

/-! ## src/audio.rs — capture callback downmix -/

/-- Rust `slice::chunks(n)`: consecutive chunks of length `n`, the final
chunk possibly shorter. -/
def chunksOf : ℕ → List ℚ → List (List ℚ)
  | _, [] => []
  | 0, _ :: _ => []
  | n + 1, x :: xs => ((x :: xs).take (n + 1)) :: chunksOf (n + 1) ((x :: xs).drop (n + 1))
termination_by _ l => l.length
decreasing_by
  simp only [List.length_drop, List.length_cons]
  omega

/-- The input-data callback closure installed by
`AudioCapture::start_recording` (src/audio.rs:65-77): when the recording
flag is set, mono data is appended as-is, and multi-channel data is
downmixed frame-by-frame by `chunk.iter().sum::<f32>() / channels as f32`,
pushing one mono sample per frame. -/
def audioCallback (buffer : List ℚ) (data : List ℚ) (channels : ℕ)
    (is_recording : Bool) : List ℚ :=
  if is_recording then
    if channels = 1 then buffer ++ data
    else buffer ++ (chunksOf channels data).map (fun chunk => chunk.sum / (channels : ℚ))
  else buffer

/-! ## Theorems for the state machine claims -/

/-- C6: `transition_to_loading` succeeds and moves the state to `Loading` if
and only if the prior (decoded) state is `Cold`; from every other prior state
it returns `false` and leaves the stored byte unchanged. -/
theorem C6_begin_loading_iff_cold (s : ℕ) :
    (StateManager.transition_to_loading s =
        (true, ReadinessState.toU8 ReadinessState.Loading) ↔
      StateManager.get s = ReadinessState.Cold)
    ∧ (StateManager.get s ≠ ReadinessState.Cold →
        StateManager.transition_to_loading s = (false, s)) := by
  constructor
  · constructor
    · intro h
      by_contra hc
      simp [StateManager.transition_to_loading, hc] at h
    · intro h
      simp [StateManager.transition_to_loading, h, StateManager.set]
  · intro h
    simp [StateManager.transition_to_loading, h]

/-- C6 witness: from the byte encoding `Hot` (3), `transition_to_loading`
fails and leaves the byte unchanged. -/
theorem C6_begin_loading_iff_cold_witness :
    StateManager.get 3 ≠ ReadinessState.Cold ∧
      StateManager.transition_to_loading 3 = (false, 3) :=
  ⟨by decide, (C6_begin_loading_iff_cold 3).2 (by decide)⟩

/-- C10: decoding a stored readiness byte is total: every byte value outside
`0..=5` decodes to `Cold`, and `StateManager.get` is exactly this total
decoding applied to the stored byte, so it returns a valid state for every
possible stored value. -/
theorem C10_ofU8_total (v : ℕ) :
    (5 < v → ReadinessState.ofU8 v = ReadinessState.Cold)
    ∧ StateManager.get v = ReadinessState.ofU8 v := by
  refine ⟨fun h => ?_, rfl⟩
  match v with
  | 0 | 1 | 2 | 3 | 4 | 5 => omega
  | n + 6 => rfl

/-- C10 witness: the out-of-range byte 200 decodes to `Cold`. -/
theorem C10_ofU8_total_witness :
    5 < 200 ∧ ReadinessState.ofU8 200 = ReadinessState.Cold :=
  ⟨by decide, (C10_ofU8_total 200).1 (by decide)⟩

/-! ## Theorems for the worker claims -/

/-- C1: submitting while the capacity-1 slot is empty queues the request;
a second submit while the worker has not yet pulled it is dropped: the state
(slot and event list) is completely unchanged, so the older request stays
queued and no outcome event is ever produced for the dropped request.  The
worker's next iteration still processes the older request, and exactly one
outcome event is produced for the whole submit-twice sequence. -/
theorem C1_slot_drops_newest (s : WorkerState) (h : s.slot = none)
    (r₁ r₂ : TranscriptionRequest) (process : TranscriptionRequest → AppEvent) :
    TranscriptionWorker.submit (TranscriptionWorker.submit s r₁) r₂ =
        TranscriptionWorker.submit s r₁
    ∧ (TranscriptionWorker.submit s r₁).slot = some r₁
    ∧ TranscriptionWorker.step process
        (TranscriptionWorker.submit (TranscriptionWorker.submit s r₁) r₂) =
        { slot := none, events := s.events ++ [process r₁] } := by
  obtain ⟨slot, events⟩ := s
  cases slot with
  | some r => exact Option.noConfusion h
  | none => exact ⟨rfl, rfl, rfl⟩

/-- C1 witness: the submit-twice sequence from the empty initial state,
with a concrete processing function. -/
theorem C1_slot_drops_newest_witness :
    (⟨none, []⟩ : WorkerState).slot = none
    ∧ TranscriptionWorker.step (fun _ => AppEvent.TranscriptionFailed)
        (TranscriptionWorker.submit
          (TranscriptionWorker.submit ⟨none, []⟩ ⟨[], 16000⟩) ⟨[(1 : ℚ)], 8000⟩) =
        { slot := none, events := [] ++ [AppEvent.TranscriptionFailed] } :=
  ⟨rfl,
    (C1_slot_drops_newest ⟨none, []⟩ rfl ⟨[], 16000⟩ ⟨[(1 : ℚ)], 8000⟩
      (fun _ => AppEvent.TranscriptionFailed)).2.2⟩

/-- C4: if the sample count after the optional VAD step is at or below 1600,
the worker emits `TranscriptionFailed` and never calls the inference engine
(the comparison in src/worker.rs:101 is `<= 1600`, so exactly 1600 samples
are rejected — the witness below exercises exactly that boundary). -/
theorem C4_min_length_rejects (request : TranscriptionRequest)
    (vad_processor : Option (List ℚ → ℕ → Except String (Option (List ℚ))))
    (transcribe : List ℚ → ℕ → Except String String) (s : List ℚ)
    (h1 : samplesToTranscribe request vad_processor = some s)
    (h2 : s.length ≤ 1600) :
    process_request request vad_processor transcribe =
      (AppEvent.TranscriptionFailed, false) := by
  simp [process_request, h1, h2]

/-- C4 witness: a request with exactly 1600 samples at 16000 Hz and VAD
disabled is rejected without calling the engine. -/
theorem C4_min_length_rejects_witness :
    samplesToTranscribe ⟨List.replicate 1600 (0 : ℚ), 16000⟩ none =
        some (List.replicate 1600 (0 : ℚ))
    ∧ (List.replicate 1600 (0 : ℚ)).length ≤ 1600
    ∧ process_request ⟨List.replicate 1600 (0 : ℚ), 16000⟩ none
        (fun _ _ => Except.ok "hi") = (AppEvent.TranscriptionFailed, false) :=
  ⟨rfl, le_of_eq (List.length_replicate 1600 0),
    C4_min_length_rejects ⟨List.replicate 1600 (0 : ℚ), 16000⟩ none
      (fun _ _ => Except.ok "hi") (List.replicate 1600 (0 : ℚ)) rfl
      (le_of_eq (List.length_replicate 1600 0))⟩

/-- C5: when the inference call succeeds, the worker emits
`TranscriptionFailed` exactly when the post-processed text is empty, and a
raw result trimming to the literal silence marker `"[BLANK_AUDIO]"` is
treated identically to empty text (postprocessing clears it, so it also
yields `TranscriptionFailed`); `TranscriptionComplete text` is emitted only
for non-empty, non-marker text. -/
theorem C5_empty_or_marker_fails (request : TranscriptionRequest)
    (vad_processor : Option (List ℚ → ℕ → Except String (Option (List ℚ))))
    (s : List ℚ) (h1 : samplesToTranscribe request vad_processor = some s)
    (h2 : 1600 < s.length) (raw : String) :
    process_request request vad_processor
        (fun _ _ => Except.ok (Transcriber.postprocessTranscript raw)) =
      (if rustStrTrim raw = "[BLANK_AUDIO]" ∨ Transcriber.postprocessTranscript raw = ""
        then AppEvent.TranscriptionFailed
        else AppEvent.TranscriptionComplete (Transcriber.postprocessTranscript raw),
        true) := by
  have hlen : ¬ s.length ≤ 1600 := by omega
  by_cases hm : rustStrTrim raw = "[BLANK_AUDIO]"
  · simp [process_request, h1, hlen, Transcriber.postprocessTranscript, hm,
      String.isEmpty_iff]
  · by_cases he : rustStrTrim raw = ""
    · simp [process_request, h1, hlen, Transcriber.postprocessTranscript, hm, he,
        String.isEmpty_iff]
    · simp [process_request, h1, hlen, Transcriber.postprocessTranscript, hm, he,
        String.isEmpty_iff]

/-- C5 witness: a successful engine result `"hello"` on a 1601-sample
request yields `TranscriptionComplete "hello"`. -/
theorem C5_empty_or_marker_fails_witness :
    samplesToTranscribe ⟨List.replicate 1601 (0 : ℚ), 16000⟩ none =
        some (List.replicate 1601 (0 : ℚ))
    ∧ 1600 < (List.replicate 1601 (0 : ℚ)).length
    ∧ process_request ⟨List.replicate 1601 (0 : ℚ), 16000⟩ none
        (fun _ _ => Except.ok (Transcriber.postprocessTranscript "hello")) =
      (AppEvent.TranscriptionComplete "hello", true) :=
  ⟨rfl, by rw [List.length_replicate]; omega,
    (C5_empty_or_marker_fails ⟨List.replicate 1601 (0 : ℚ), 16000⟩ none
      (List.replicate 1601 (0 : ℚ)) rfl (by rw [List.length_replicate]; omega) "hello").trans
      (by decide)⟩

/-- C7: when VAD is enabled and the segmenter returns an internal error, the
worker does not fail the request for that reason: the request is processed
exactly as if VAD were disabled, i.e. on the original untrimmed samples. -/
theorem C7_segmenter_error_falls_back (request : TranscriptionRequest)
    (vadf : List ℚ → ℕ → Except String (Option (List ℚ))) (e : String)
    (h : vadf request.samples request.sample_rate = Except.error e)
    (transcribe : List ℚ → ℕ → Except String String) :
    process_request request (some vadf) transcribe =
      process_request request none transcribe := by
  simp [process_request, samplesToTranscribe, h]

/-- C7 witness: a segmenter that always errors leaves the outcome equal to
the no-VAD outcome on a concrete request. -/
theorem C7_segmenter_error_falls_back_witness :
    (fun (_ : List ℚ) (_ : ℕ) =>
        (Except.error "vad failed" : Except String (Option (List ℚ)))) [(1 : ℚ)] 8000 =
      Except.error "vad failed"
    ∧ process_request ⟨[(1 : ℚ)], 8000⟩
        (some (fun _ _ => Except.error "vad failed"))
        (fun _ _ => Except.error "engine") =
      process_request ⟨[(1 : ℚ)], 8000⟩ none (fun _ _ => Except.error "engine") :=
  ⟨rfl,
    C7_segmenter_error_falls_back ⟨[(1 : ℚ)], 8000⟩
      (fun _ _ => Except.error "vad failed") "vad failed" rfl
      (fun _ _ => Except.error "engine")⟩

/-! ## Theorems for the quantization claim -/

/-- C2 counterexample: at the sample `1/2` (whose `f32` computation
`0.5 * 32767.0 = 16383.5` is exact), the code's quantization produces
16383 (truncation toward zero) while the claimed formula
`round(clamp(s * 32767, -32768, 32767))` produces 16384, so the claim as
stated is false. -/
theorem C2_round_counterexample :
    quantize (1 / 2) = 16383 ∧ specQuantizeRound (1 / 2) = 16384 ∧
      quantize (1 / 2) ≠ specQuantizeRound (1 / 2) := by
  have h1 : quantize (1 / 2) = 16383 := by
    norm_num [quantize, ratTrunc, rustClamp]
  have h2 : specQuantizeRound (1 / 2) = 16384 := by
    norm_num [specQuantizeRound, ratRound, specClamp, min_def, max_def]
  exact ⟨h1, h2, by rw [h1, h2]; decide⟩

/-- C2 (amended): for every input sample `s`, `VadProcessor::process`
quantizes `s` to a 16-bit signed integer by computing
`trunc(clamp(s * 32767, -32768, 32767))`, i.e. the clamped scaled value is
truncated toward zero (the semantics of Rust's `as i16` cast), not rounded
to nearest. -/
theorem C2_quantize_truncates (s : ℚ) :
    quantize s = specQuantizeTrunc s := by
  have h : rustClamp (s * 32767) (-32768) 32767 = specClamp (s * 32767) (-32768) 32767 := by
    unfold rustClamp specClamp
    split_ifs with h1 h2
    · rw [min_eq_left (by linarith), max_eq_left (by linarith)]
    · rw [min_eq_right (by linarith), max_eq_right (by norm_num)]
    · rw [min_eq_left (by linarith), max_eq_right (by linarith)]
  unfold quantize specQuantizeTrunc
  rw [h]

/-! ## Characterization of the VAD chunk scan -/

/-- If no chunk among the first `n` exceeds the threshold, the scan state is
untouched. -/
theorem vadScan_of_no_match (t : ℚ) (predict : ℕ → List ℤ → ℚ) (s16 : List ℤ)
    (cs n : ℕ) (h : ∀ i, i < n → ¬ t < predict i (vadChunk s16 cs i)) :
    (List.range n).foldl (vadStepChunk t predict s16 cs) ⟨none, none, false⟩ =
      ⟨none, none, false⟩ := by
  induction n with
  | zero => rfl
  | succ n ih =>
    rw [List.range_succ, List.foldl_append,
      ih (fun i hi => h i (Nat.lt_succ_of_lt hi))]
    simp [vadStepChunk, h n (Nat.lt_succ_self n)]

/-- After the scan, `speech_start` records the start offset of the first
chunk that exceeded the threshold. -/
theorem vadScan_speech_start (t : ℚ) (predict : ℕ → List ℤ → ℚ) (s16 : List ℤ)
    (cs n i₀ : ℕ) (hi₀ : i₀ < n)
    (hm₀ : t < predict i₀ (vadChunk s16 cs i₀))
    (hfirst : ∀ j, j < i₀ → ¬ t < predict j (vadChunk s16 cs j)) :
    ((List.range n).foldl (vadStepChunk t predict s16 cs)
        ⟨none, none, false⟩).speech_start = some (i₀ * cs) := by
  induction n with
  | zero => omega
  | succ n ih =>
    rw [List.range_succ, List.foldl_append]
    rcases Nat.lt_succ_iff_lt_or_eq.mp hi₀ with h | h
    · have hs := ih h
      simp only [List.foldl_cons, List.foldl_nil]
      rw [vadStepChunk]
      split_ifs with hn hss
      · exact absurd (hs.symm.trans hss) (by simp)
      · exact hs
      · exact hs
    · subst h
      rw [vadScan_of_no_match t predict s16 cs i₀ hfirst]
      simp [vadStepChunk, hm₀]

/-- Full characterization of the scan when the matching chunks are exactly
delimited by a first match `i₀` and a last match `i₁`. -/
theorem vadScan_char (t : ℚ) (predict : ℕ → List ℤ → ℚ) (s16 : List ℤ)
    (cs n i₀ i₁ : ℕ) (hi₁ : i₁ < n)
    (hm₀ : t < predict i₀ (vadChunk s16 cs i₀))
    (hfirst : ∀ j, j < i₀ → ¬ t < predict j (vadChunk s16 cs j))
    (hm₁ : t < predict i₁ (vadChunk s16 cs i₁))
    (hlast : ∀ j, j < n → i₁ < j → ¬ t < predict j (vadChunk s16 cs j)) :
    (List.range n).foldl (vadStepChunk t predict s16 cs) ⟨none, none, false⟩ =
      ⟨some (i₀ * cs), some (i₁ * cs + cs), true⟩ := by
  have hle : i₀ ≤ i₁ := by
    by_contra hlt
    exact hfirst i₁ (by omega) hm₁
  induction n with
  | zero => omega
  | succ n ih =>
    rw [List.range_succ, List.foldl_append]
    rcases Nat.lt_succ_iff_lt_or_eq.mp hi₁ with h | h
    · have hn : ¬ t < predict n (vadChunk s16 cs n) :=
        hlast n (Nat.lt_succ_self n) (by omega)
      rw [ih h (fun j hj hij => hlast j (Nat.lt_succ_of_lt hj) hij)]
      simp [vadStepChunk, hn]
    · subst h
      rcases Nat.lt_or_ge i₀ i₁ with h0 | h0
      · have hstart := vadScan_speech_start t predict s16 cs i₁ i₀ h0 hm₀ hfirst
        simp only [List.foldl_cons, List.foldl_nil]
        rw [vadStepChunk, if_pos hm₁]
        simp [hstart]
      · have h0' : i₀ = i₁ := by omega
        subst h0'
        rw [vadScan_of_no_match t predict s16 cs i₀ hfirst]
        simp [vadStepChunk, hm₀]

/-! ## Theorems for the VAD claims -/

/-- C3: if the detector builds for this call and the chunks whose speech
probability exceeds the threshold span the raw sample region
`[i₀*cs, i₁*cs + cs)` (first matching chunk `i₀`, last matching chunk `i₁`,
chunk size `cs`), then `process` returns the sample slice
`[max(0, a - pad), min(len, b + pad))` provided its length is at least
`min_speech_samples` (100 ms at the construction rate), and "no speech"
(`Ok(None)`) when the padded span is shorter, even though chunks matched.
Construction rate and processing rate coincide here, matching the spec's
"50 ms of samples at the given rate". -/
theorem C3_padded_span (threshold : ℚ) (sample_rate : ℕ)
    (build : ℕ → ℕ → Except String (ℕ → List ℤ → ℚ))
    (predict : ℕ → List ℤ → ℚ) (samples : List ℚ) (i₀ i₁ : ℕ)
    (hbuild : build sample_rate (chunkSizeOf sample_rate) = Except.ok predict)
    (hi₁ : i₁ < samples.length / chunkSizeOf sample_rate)
    (hm₀ : threshold < predict i₀
      (vadChunk (samples.map quantize) (chunkSizeOf sample_rate) i₀))
    (hfirst : ∀ j, j < i₀ → ¬ threshold < predict j
      (vadChunk (samples.map quantize) (chunkSizeOf sample_rate) j))
    (hm₁ : threshold < predict i₁
      (vadChunk (samples.map quantize) (chunkSizeOf sample_rate) i₁))
    (hlast : ∀ j, j < samples.length / chunkSizeOf sample_rate → i₁ < j →
      ¬ threshold < predict j
        (vadChunk (samples.map quantize) (chunkSizeOf sample_rate) j)) :
    (VadProcessor.new threshold sample_rate).process build samples sample_rate =
      (if min (i₁ * chunkSizeOf sample_rate + chunkSizeOf sample_rate +
            (VadProcessor.new threshold sample_rate).padding_samples) samples.length -
          (i₀ * chunkSizeOf sample_rate -
            (VadProcessor.new threshold sample_rate).padding_samples) <
          (VadProcessor.new threshold sample_rate).min_speech_samples
      then Except.ok none
      else Except.ok (some ((samples.drop
          (i₀ * chunkSizeOf sample_rate -
            (VadProcessor.new threshold sample_rate).padding_samples)).take
        (min (i₁ * chunkSizeOf sample_rate + chunkSizeOf sample_rate +
            (VadProcessor.new threshold sample_rate).padding_samples) samples.length -
          (i₀ * chunkSizeOf sample_rate -
            (VadProcessor.new threshold sample_rate).padding_samples))))) := by
  simp only [VadProcessor.process, VadProcessor.new, hbuild]
  rw [vadScan_char threshold predict (samples.map quantize)
    (chunkSizeOf sample_rate) (samples.length / chunkSizeOf sample_rate)
    i₀ i₁ hi₁ hm₀ hfirst hm₁ hlast]
  simp [Option.getD]

/-- C3 witness: at 8000 Hz (chunk size 256), a single matching chunk on a
512-sample buffer gives a padded span of 512 samples, below the 800-sample
minimum, so the result is "no speech" despite the match. -/
theorem C3_padded_span_witness :
    0 < (List.replicate 512 (0 : ℚ)).length / chunkSizeOf 8000
    ∧ ((1 : ℚ) / 2) < (fun (i : ℕ) (_ : List ℤ) => if i = 0 then (1 : ℚ) else 0) 0
        (vadChunk ((List.replicate 512 (0 : ℚ)).map quantize) (chunkSizeOf 8000) 0)
    ∧ (VadProcessor.new (1 / 2) 8000).process
        (fun _ _ => Except.ok (fun (i : ℕ) (_ : List ℤ) => if i = 0 then (1 : ℚ) else 0))
        (List.replicate 512 (0 : ℚ)) 8000 = Except.ok none := by
  refine ⟨by rw [List.length_replicate]; norm_num [chunkSizeOf], by norm_num, ?_⟩
  refine (C3_padded_span (1 / 2) 8000
      (fun _ _ => Except.ok (fun (i : ℕ) (_ : List ℤ) => if i = 0 then (1 : ℚ) else 0))
      (fun (i : ℕ) (_ : List ℤ) => if i = 0 then (1 : ℚ) else 0)
      (List.replicate 512 (0 : ℚ)) 0 0 rfl ?_ ?_ ?_ ?_ ?_).trans ?_
  · rw [List.length_replicate]; norm_num [chunkSizeOf]
  · norm_num
  · exact fun j hj => absurd hj (Nat.not_lt_zero j)
  · norm_num
  · intro j _ hj
    have hne : j ≠ 0 := by omega
    norm_num [hne]
  · rw [List.length_replicate]
    norm_num [VadProcessor.new, ratTrunc, chunkSizeOf, min_def,
      show ((400 : ℤ)).toNat = 400 from rfl]

/-- C9 counterexample: the per-call `sample_rate` of `process` does not only
select the chunk size — it is also forwarded to the external classifier's
builder (src/vad.rs:28), whose error path (src/vad.rs:31) and predictions
are rate-dependent.  The concrete builder below accepts 16000 Hz and rejects
44100 Hz at chunk size 512, as the real detector crate does (it rejects
rate/chunk-size combinations with rate greater than 31.25 times the chunk
size), so two call rates with equal chunk size process differently:
`Ok(None)` at 16000 Hz versus a "VAD creation failed" error at 44100 Hz. -/
theorem C9_rate_counterexample :
    chunkSizeOf 16000 = chunkSizeOf 44100
    ∧ (VadProcessor.new (1 / 2) 16000).process
        (fun rate _ => if rate = 16000
          then Except.ok fun _ _ => (1 : ℚ)
          else Except.error "unsupported") [] 16000 = Except.ok none
    ∧ (VadProcessor.new (1 / 2) 16000).process
        (fun rate _ => if rate = 16000
          then Except.ok fun _ _ => (1 : ℚ)
          else Except.error "unsupported") [] 44100 =
        Except.error "VAD creation failed: unsupported"
    ∧ (VadProcessor.new (1 / 2) 16000).process
        (fun rate _ => if rate = 16000
          then Except.ok fun _ _ => (1 : ℚ)
          else Except.error "unsupported") [] 16000 ≠
      (VadProcessor.new (1 / 2) 16000).process
        (fun rate _ => if rate = 16000
          then Except.ok fun _ _ => (1 : ℚ)
          else Except.error "unsupported") [] 44100 :=
  ⟨rfl, rfl, rfl, fun h => Except.noConfusion h⟩

/-- C9 (amended): `padding_samples` (50 ms of samples) and
`min_speech_samples` (100 ms of samples) are computed once, from the sample
rate passed to `VadProcessor::new`; the `sample_rate` argument of `process`
enters only through the chunk size (256 at 8000 Hz, else 512) and through
what is forwarded to the external classifier's builder — two call-time
rates with equal chunk size and equal builder behaviour give identical
results — and it never enters the padding or minimum-duration checks, so
when the construction-time rate differs from the per-call rate those checks
use the construction-time rate, not the rate of the buffer being
processed. -/
theorem C9_rate_roles (t : ℚ) (R r r' : ℕ)
    (build : ℕ → ℕ → Except String (ℕ → List ℤ → ℚ)) (samples : List ℚ)
    (hcs : chunkSizeOf r = chunkSizeOf r')
    (hbuild : build r (chunkSizeOf r) = build r' (chunkSizeOf r')) :
    (VadProcessor.new t R).process build samples r =
        (VadProcessor.new t R).process build samples r'
    ∧ chunkSizeOf 8000 = 256
    ∧ (r ≠ 8000 → chunkSizeOf r = 512)
    ∧ (VadProcessor.new t R).padding_samples =
        (ratTrunc ((R : ℚ) * (50 / 1000))).toNat
    ∧ (VadProcessor.new t R).min_speech_samples =
        (ratTrunc ((R : ℚ) * (100 / 1000))).toNat := by
  refine ⟨?_, rfl, fun hr => by simp [chunkSizeOf, hr], ?_, ?_⟩
  · simp only [VadProcessor.process]
    rw [hbuild, hcs]
  · norm_num [VadProcessor.new]
  · norm_num [VadProcessor.new]

/-- C9 witness: rates 16000 and 44100 share the chunk size 512, and with a
builder that treats the two rates identically, a processor built at
16000 Hz processes a buffer identically under either call-time rate. -/
theorem C9_rate_roles_witness :
    chunkSizeOf 16000 = chunkSizeOf 44100
    ∧ (VadProcessor.new (1 / 2) 16000).process
        (fun _ _ => Except.ok fun _ _ => (1 : ℚ)) [(1 : ℚ)] 16000 =
      (VadProcessor.new (1 / 2) 16000).process
        (fun _ _ => Except.ok fun _ _ => (1 : ℚ)) [(1 : ℚ)] 44100 :=
  ⟨by decide,
    (C9_rate_roles (1 / 2) 16000 16000 44100
      (fun _ _ => Except.ok fun _ _ => (1 : ℚ)) [(1 : ℚ)]
      (by decide) rfl).1⟩

/-! ## Theorems for the audio downmix claim -/

/-- Unfolding lemma for `chunksOf` on an empty slice. -/
theorem chunksOf_nil (n : ℕ) : chunksOf n [] = [] := by
  cases n with
  | zero => rw [chunksOf]
  | succ n => rw [chunksOf]

/-- Unfolding lemma for `chunksOf` on a nonempty slice with positive chunk
size. -/
theorem chunksOf_cons (n : ℕ) (x : ℚ) (xs : List ℚ) :
    chunksOf (n + 1) (x :: xs) =
      ((x :: xs).take (n + 1)) :: chunksOf (n + 1) ((x :: xs).drop (n + 1)) := by
  rw [chunksOf]

/-- Chunking a concatenation of frames of length `c` recovers the frames. -/
theorem chunksOf_flatten (c : ℕ) (hc : 0 < c) (frames : List (List ℚ))
    (hf : ∀ f ∈ frames, f.length = c) :
    chunksOf c frames.flatten = frames := by
  induction frames with
  | nil => rw [List.flatten_nil, chunksOf_nil]
  | cons f fs ih =>
    have hfl : f.length = c := hf f (List.mem_cons_self f fs)
    cases c with
    | zero => omega
    | succ n =>
      cases f with
      | nil => simp at hfl
      | cons x xs =>
        rw [List.flatten_cons, List.cons_append, chunksOf_cons,
          ← List.cons_append, List.take_left' hfl, List.drop_left' hfl,
          ih (fun g hg => hf g (List.mem_cons_of_mem _ hg))]

/-- C8: while recording, the audio callback downmixes every multi-channel
frame to one mono sample equal to the arithmetic mean of the frame's channel
values, appending one sample per frame to the buffer. -/
theorem C8_downmix_mean (frames : List (List ℚ)) (channels : ℕ)
    (buffer : List ℚ) (hc : 2 ≤ channels)
    (hf : ∀ f ∈ frames, f.length = channels) :
    audioCallback buffer frames.flatten channels true =
      buffer ++ frames.map (fun frame => frame.sum / (channels : ℚ)) := by
  have h1 : channels ≠ 1 := by omega
  rw [audioCallback, if_pos rfl, if_neg h1,
    chunksOf_flatten channels (by omega) frames hf]

/-- C8 witness: the stereo interleaved frame `[1.0, -1.0]` at 2 channels
downmixes to the mono sample `0.0`. -/
theorem C8_downmix_mean_witness :
    audioCallback [] [(1 : ℚ), -1] 2 true = [0] := by
  have h := C8_downmix_mean [[(1 : ℚ), -1]] 2 [] (le_refl 2) (by simp)
  simpa using h

end Dictation
